import Mathlib

/-!
A shallow embedding of the polling statement-execution client in `app/db.py`
(`DatabricksCursor.execute`, `DatabricksCursor.fetchall` and its inner `Row`
class), together with proofs about it.

The embedding models one `execute` call as a pure function of
  * the environment (`Env`): the HTTP responses the server would return for
    the initial POST, for each status-poll GET and for each chunk GET, and
  * the cursor state (`CursorState`): the `description` and `_results`
    fields of the Python object,
returning the trace of observable effects (`Event`), the updated cursor
state, and the raised exception if any (`DbError`).

Cell values are an arbitrary type `V` (Python rows hold opaque JSON values).
-/

namespace DbClient

/-- One entry of `manifest["chunks"]`; only `chunk_index` is read by the code. -/
structure ChunkInfo where
  chunk_index : Nat
  deriving DecidableEq, Repr

/-- `result["status"]`: the `state` string and the optional `error` payload
that `execute` reports on a non-SUCCEEDED terminal state. -/
structure StmtStatus where
  state : String
  error : Option String
  deriving DecidableEq, Repr

/-- `result["manifest"]`: the schema column names (`schema.columns[*].name`,
the only part of each column the code reads) and the chunk list. -/
structure Manifest where
  schemaColumns : List String
  chunks : List ChunkInfo
  deriving DecidableEq, Repr

/-- A parsed statement-API JSON response, as consumed by `execute`:
`statement_id`, `status` and `manifest` (absent JSON fields are modelled by
default values, matching the `.get(..., default)` accesses). -/
structure StmtResult where
  statement_id : String
  status : StmtStatus
  manifest : Manifest
  deriving DecidableEq, Repr

/-- Outcome of one chunk GET (`requests.get` + `.json()`).
`fetchError` models the request or the JSON decode raising; `ok` carries the
HTTP status code and `data_array` (defaulting to `[]` when the key is
absent). Note the code never inspects the status code of a chunk response. -/
inductive ChunkResp (V : Type) where
  | fetchError
  | ok (statusCode : Nat) (data_array : List (List V))
  deriving DecidableEq, Repr

/-- The server behaviour observed by one `execute` call: the initial POST's
HTTP status, raw body text and parsed JSON, the parsed JSON of the i-th
status-poll GET, and the response of the chunk GET for each chunk index. -/
structure Env (V : Type) where
  submitStatus : Nat
  submitBody : String
  submitResult : StmtResult
  polls : Nat → StmtResult
  chunkResp : Nat → ChunkResp V

/-- The mutable fields of `DatabricksCursor`: `description` (None until set;
modelled by the column-name list, the only component read downstream) and
`_results`. -/
structure CursorState (V : Type) where
  description : Option (List String)
  results : List (List V)
  deriving DecidableEq, Repr

/-- `DatabricksCursor.__init__`: `description = None`, `_results = []`. -/
def initCursor (V : Type) : CursorState V := ⟨none, []⟩

/-- The distinct raise sites of `execute`:
`submissionFailed` = non-200 on the initial POST (carries `response.text`),
`timeoutExceeded` = poll cap reached,
`queryExecutionFailed` = terminal non-SUCCEEDED state (carries
`status.error`), `chunkFetchError` = the chunk GET or its JSON decode raised. -/
inductive DbError where
  | submissionFailed (body : String)
  | timeoutExceeded
  | queryExecutionFailed (payload : Option String)
  | chunkFetchError
  deriving DecidableEq, Repr

/-- Observable effects of one `execute` call: `time.sleep(secs)`, a
status-poll GET, and a chunk GET for a given chunk index. -/
inductive Event where
  | sleep (secs : Nat)
  | statusGet
  | chunkGet (idx : Nat)
  deriving DecidableEq, Repr

/-- `max_polls = 60`. -/
def maxPolls : Nat := 60

/-- The poll-loop guard: `state in ["PENDING", "RUNNING"]`. -/
def isActive (s : String) : Bool := s == "PENDING" || s == "RUNNING"

/-- The `while` loop of `execute`: while the state is PENDING/RUNNING, raise
timeout once `poll_count >= max_polls`, otherwise sleep 2s, increment
`poll_count` and GET the status again.  `fuel` only bounds the recursion; at
every reachable call `maxPolls - pollCount ≤ fuel` holds (the top-level call
uses `fuel = maxPolls`, `pollCount = 0`), so the `fuel = 0` branch is never
taken and the function agrees exactly with the unbounded loop. -/
def pollLoopAux (polls : Nat → StmtResult) :
    Nat → Nat → StmtResult → List Event × Except DbError StmtResult
  | fuel, pollCount, r =>
    if isActive r.status.state then
      if maxPolls ≤ pollCount then ([], .error .timeoutExceeded)
      else
        match fuel with
        | 0 => ([], .error .timeoutExceeded)
        | fuel' + 1 =>
          let rest := pollLoopAux polls fuel' (pollCount + 1) (polls pollCount)
          (Event.sleep 2 :: Event.statusGet :: rest.1, rest.2)
    else ([], .ok r)

/-- The poll loop as entered by `execute` (`poll_count = 0`). -/
def pollLoop (polls : Nat → StmtResult) (r : StmtResult) :
    List Event × Except DbError StmtResult :=
  pollLoopAux polls maxPolls 0 r

/-- The `for chunk in chunks` loop: GET each chunk by its `chunk_index` and
`self._results.extend(chunk_data.get("data_array", []))`.  `acc` is the
current value of `_results`; on a failing chunk GET the exception propagates
and the rows extended so far are kept, exactly as in the Python code.  The
HTTP status of a chunk response is never examined. -/
def fetchChunks {V : Type} (resp : Nat → ChunkResp V) :
    List ChunkInfo → List (List V) → List Event × List (List V) × Option DbError
  | [], acc => ([], acc, none)
  | c :: rest, acc =>
    match resp c.chunk_index with
    | .fetchError => ([Event.chunkGet c.chunk_index], acc, some .chunkFetchError)
    | .ok _ data =>
      let r := fetchChunks resp rest (acc ++ data)
      (Event.chunkGet c.chunk_index :: r.1, r.2)

/-- Result of one `execute` call: the effect trace, the cursor state after
the call (including partial mutation when an exception propagates), and the
raised exception, if any. -/
structure ExecOutcome (V : Type) where
  trace : List Event
  state : CursorState V
  error : Option DbError
  deriving Repr

/-- `DatabricksCursor.execute`, line by line:
POST; raise on non-200; poll while PENDING/RUNNING (cap 60); raise on a
terminal state other than SUCCEEDED; if the manifest lists chunks, set
`description` from the schema and extend `_results` with each chunk's
`data_array` in manifest order; otherwise set `description = []` and
`_results = []`. -/
def execute {V : Type} (env : Env V) (st : CursorState V) : ExecOutcome V :=
  if env.submitStatus ≠ 200 then
    ⟨[], st, some (.submissionFailed env.submitBody)⟩
  else
    let p := pollLoop env.polls env.submitResult
    match p.2 with
    | .error e => ⟨p.1, st, some e⟩
    | .ok result =>
      if result.status.state ≠ "SUCCEEDED" then
        ⟨p.1, st, some (.queryExecutionFailed result.status.error)⟩
      else if result.manifest.chunks.isEmpty then
        ⟨p.1, { st with description := some [], results := [] }, none⟩
      else
        let f := fetchChunks env.chunkResp result.manifest.chunks st.results
        ⟨p.1 ++ f.1,
         { description := some result.manifest.schemaColumns, results := f.2.1 },
         f.2.2⟩

/-- The inner `Row` class of `fetchall`: `_values` and `_columns`. -/
structure Row (V : Type) where
  values : List V
  columns : List String
  deriving DecidableEq, Repr

/-- Lookup in `dict(zip(cols, vals))`: `zip` truncates at the shorter list
and a later duplicate key overwrites an earlier one. -/
def dictZip {V : Type} : List String → List V → String → Option V
  | c :: cs, v :: vs, k =>
    match dictZip cs vs k with
    | some w => some w
    | none => if k = c then some v else none
  | _, _, _ => none

/-- `Row._mapping` (aliasing `Row._data`): `dict(zip(columns, values))`. -/
def Row.mapping {V : Type} (r : Row V) : String → Option V :=
  dictZip r.columns r.values

/-- `Row.__getitem__` with an `int` key: `self._values[key]`
(`none` models an IndexError). -/
def Row.getPos {V : Type} (r : Row V) (i : Nat) : Option V := r.values.get? i

/-- `Row.__getitem__` with a string key: `self._data[key]`
(`none` models a KeyError). -/
def Row.getKey {V : Type} (r : Row V) (k : String) : Option V := r.mapping k

/-- `Row.__iter__`: iterate over `self._values`. -/
def Row.iterVals {V : Type} (r : Row V) : List V := r.values

/-- `columns = [col[0] for col in self.description] if self.description else []`
(both `None` and an empty description give `[]`). -/
def cursorColumns {V : Type} (st : CursorState V) : List String :=
  st.description.getD []

/-- `DatabricksCursor.fetchall`: wrap each raw row of `_results` with the
current column names into a `Row`. -/
def fetchall {V : Type} (st : CursorState V) : List (Row V) :=
  st.results.map (fun row => ⟨row, cursorColumns st⟩)

/-- The downstream pattern `dict(zip(columns, row))` (e.g.
`query_service.py`), which iterates the row via `Row.__iter__`. -/
def rowToDict {V : Type} (cols : List String) (r : Row V) : String → Option V :=
  dictZip cols r.iterVals

/-- The status results seen by the loop when started from result `r` with
the next GET using poll index `c`: position `0` is `r` itself, position
`i + 1` is the response of the GET with poll index `c + i`. -/
def chainFrom (polls : Nat → StmtResult) (r : StmtResult) (c : Nat) : Nat → StmtResult
  | 0 => r
  | i + 1 => polls (c + i)

/-- The status results seen by a top-level `execute`: position `0` is the
initial POST's result, position `i + 1` the result of the i-th poll GET. -/
def statusChain {V : Type} (env : Env V) : Nat → StmtResult :=
  chainFrom env.polls env.submitResult 0

/-- The effect trace of `n` poll iterations: n times sleep-2-then-GET. -/
def pollTrace (n : Nat) : List Event :=
  List.flatten (List.replicate n [Event.sleep 2, Event.statusGet])

/-- Recognizer for status-poll GET events. -/
def isStatusGet : Event → Bool
  | Event.statusGet => true
  | _ => false

/-- Number of status-poll GETs in a trace. -/
def countStatusGets (t : List Event) : Nat := t.countP isStatusGet

/-- The concatenation of the data arrays of chunks `0 .. n-1`:
`d 0 ++ d 1 ++ ... ++ d (n-1)`. -/
def concatChunks {V : Type} (d : Nat → List (List V)) (n : Nat) : List (List V) :=
  ((List.range n).map d).flatten

/-! ### Helper lemmas about the poll loop -/

theorem pollLoopAux_notActive (polls : Nat → StmtResult) (fuel pollCount : Nat)
    (r : StmtResult) (h : isActive r.status.state = false) :
    pollLoopAux polls fuel pollCount r = ([], .ok r) := by
  cases fuel <;> simp [pollLoopAux, h]

theorem pollLoopAux_step (polls : Nat → StmtResult) (fuel pollCount : Nat)
    (r : StmtResult) (h : isActive r.status.state = true)
    (hc : pollCount < maxPolls) :
    pollLoopAux polls (fuel + 1) pollCount r =
      (Event.sleep 2 :: Event.statusGet ::
        (pollLoopAux polls fuel (pollCount + 1) (polls pollCount)).1,
       (pollLoopAux polls fuel (pollCount + 1) (polls pollCount)).2) := by
  rw [pollLoopAux]
  simp only [h, if_true]
  rw [if_neg (by omega)]

theorem pollLoopAux_cap (polls : Nat → StmtResult) (fuel pollCount : Nat)
    (r : StmtResult) (h : isActive r.status.state = true)
    (hc : maxPolls ≤ pollCount) :
    pollLoopAux polls fuel pollCount r = ([], .error .timeoutExceeded) := by
  cases fuel <;> · rw [pollLoopAux]; simp only [h, if_true]; rw [if_pos hc]

theorem chainFrom_shift (polls : Nat → StmtResult) (r : StmtResult) (c i : Nat) :
    chainFrom polls (polls c) (c + 1) i = chainFrom polls r c (i + 1) := by
  cases i with
  | zero => simp [chainFrom]
  | succ j => show polls (c + 1 + j) = polls (c + (j + 1)); congr 1; omega

theorem pollTrace_zero : pollTrace 0 = [] := rfl

theorem pollTrace_succ (n : Nat) :
    pollTrace (n + 1) = Event.sleep 2 :: Event.statusGet :: pollTrace n := by
  simp [pollTrace, List.replicate_succ]

theorem pollTrace_mem (n : Nat) :
    ∀ e ∈ pollTrace n, e = Event.sleep 2 ∨ e = Event.statusGet := by
  induction n with
  | zero => intro e he; simp [pollTrace_zero] at he
  | succ m ih =>
    intro e he
    rw [pollTrace_succ] at he
    simp only [List.mem_cons] at he
    rcases he with he | he | he
    · exact Or.inl he
    · exact Or.inr he
    · exact ih e he

theorem pollTrace_countStatusGets (n : Nat) : countStatusGets (pollTrace n) = n := by
  induction n with
  | zero => rfl
  | succ m ih =>
    rw [pollTrace_succ]
    simp only [countStatusGets, List.countP_cons] at ih ⊢
    simp [isStatusGet, ih]

/-- If the loop sees `N` active statuses and then a non-active one, it makes
exactly `N` sleep-and-GET iterations and returns the first non-active result. -/
theorem pollLoopAux_run (polls : Nat → StmtResult) :
    ∀ (N fuel c : Nat) (r : StmtResult), N ≤ fuel → c + N ≤ maxPolls →
    (∀ i, i < N → isActive (chainFrom polls r c i).status.state = true) →
    isActive (chainFrom polls r c N).status.state = false →
    pollLoopAux polls fuel c r = (pollTrace N, .ok (chainFrom polls r c N)) := by
  intro N
  induction N with
  | zero =>
    intro fuel c r _ _ _ hstop
    simp only [chainFrom] at hstop ⊢
    rw [pollLoopAux_notActive polls fuel c r hstop, pollTrace_zero]
  | succ N ih =>
    intro fuel c r hfuel hcap hact hstop
    have hr : isActive r.status.state = true := hact 0 (Nat.succ_pos N)
    obtain ⟨fuel', rfl⟩ : ∃ f, fuel = f + 1 := ⟨fuel - 1, by omega⟩
    rw [pollLoopAux_step polls fuel' c r hr (by omega)]
    have ihres := ih fuel' (c + 1) (polls c) (by omega) (by omega)
      (fun i hi => by rw [chainFrom_shift polls r]; exact hact (i + 1) (by omega))
      (by rw [chainFrom_shift polls r]; exact hstop)
    rw [ihres, chainFrom_shift polls r, pollTrace_succ]

/-- If the loop sees an active status at every opportunity, it makes exactly
`maxPolls - c` iterations (counting from poll count `c`) and raises the
timeout. -/
theorem pollLoopAux_timeout (polls : Nat → StmtResult) :
    ∀ (N fuel c : Nat) (r : StmtResult), N ≤ fuel → c + N = maxPolls →
    (∀ i, i ≤ N → isActive (chainFrom polls r c i).status.state = true) →
    pollLoopAux polls fuel c r = (pollTrace N, .error .timeoutExceeded) := by
  intro N
  induction N with
  | zero =>
    intro fuel c r _ hcap hact
    have hr : isActive r.status.state = true := hact 0 (Nat.le_refl 0)
    rw [pollLoopAux_cap polls fuel c r hr (by omega), pollTrace_zero]
  | succ N ih =>
    intro fuel c r hfuel hcap hact
    have hr : isActive r.status.state = true := hact 0 (Nat.zero_le _)
    obtain ⟨fuel', rfl⟩ : ∃ f, fuel = f + 1 := ⟨fuel - 1, by omega⟩
    rw [pollLoopAux_step polls fuel' c r hr (by omega)]
    have ihres := ih fuel' (c + 1) (polls c) (by omega) (by omega)
      (fun i hi => by rw [chainFrom_shift polls r]; exact hact (i + 1) (by omega))
    rw [ihres, pollTrace_succ]

theorem pollLoop_run {V : Type} (env : Env V) (N : Nat) (hN : N ≤ maxPolls)
    (hact : ∀ i, i < N → isActive (statusChain env i).status.state = true)
    (hstop : isActive (statusChain env N).status.state = false) :
    pollLoop env.polls env.submitResult = (pollTrace N, .ok (statusChain env N)) :=
  pollLoopAux_run env.polls N maxPolls 0 env.submitResult hN (by omega) hact hstop

theorem pollLoop_timeout {V : Type} (env : Env V)
    (hact : ∀ i, i ≤ maxPolls → isActive (statusChain env i).status.state = true) :
    pollLoop env.polls env.submitResult = (pollTrace maxPolls, .error .timeoutExceeded) :=
  pollLoopAux_timeout env.polls maxPolls maxPolls 0 env.submitResult
    (Nat.le_refl _) (by omega) hact

/-! ### Helper lemmas about `execute` and `fetchChunks` -/

theorem execute_submit_fail {V : Type} (env : Env V) (st : CursorState V)
    (h : env.submitStatus ≠ 200) :
    execute env st = ⟨[], st, some (.submissionFailed env.submitBody)⟩ := by
  unfold execute
  rw [if_pos h]

theorem execute_poll_error {V : Type} (env : Env V) (st : CursorState V) (e : DbError)
    (hsub : env.submitStatus = 200)
    (hpoll : (pollLoop env.polls env.submitResult).2 = .error e) :
    execute env st = ⟨(pollLoop env.polls env.submitResult).1, st, some e⟩ := by
  unfold execute
  rw [if_neg (by simp [hsub])]
  simp only [hpoll]

theorem execute_ok {V : Type} (env : Env V) (st : CursorState V) (res : StmtResult)
    (hsub : env.submitStatus = 200)
    (hpoll : (pollLoop env.polls env.submitResult).2 = .ok res) :
    execute env st =
      if res.status.state ≠ "SUCCEEDED" then
        ⟨(pollLoop env.polls env.submitResult).1, st,
         some (.queryExecutionFailed res.status.error)⟩
      else if res.manifest.chunks.isEmpty then
        ⟨(pollLoop env.polls env.submitResult).1,
         { st with description := some [], results := [] }, none⟩
      else
        ⟨(pollLoop env.polls env.submitResult).1 ++
           (fetchChunks env.chunkResp res.manifest.chunks st.results).1,
         { description := some res.manifest.schemaColumns,
           results := (fetchChunks env.chunkResp res.manifest.chunks st.results).2.1 },
         (fetchChunks env.chunkResp res.manifest.chunks st.results).2.2⟩ := by
  unfold execute
  rw [if_neg (by simp [hsub])]
  simp only [hpoll]

theorem fetchChunks_mem {V : Type} (resp : Nat → ChunkResp V) :
    ∀ (l : List ChunkInfo) (acc : List (List V)) (e : Event),
      e ∈ (fetchChunks resp l acc).1 → ∃ k, e = Event.chunkGet k := by
  intro l
  induction l with
  | nil => intro acc e he; simp [fetchChunks] at he
  | cons c rest ih =>
    intro acc e he
    rw [fetchChunks] at he
    cases h : resp c.chunk_index with
    | fetchError =>
      rw [h] at he
      simp only [List.mem_singleton] at he
      exact ⟨c.chunk_index, he⟩
    | ok s data =>
      rw [h] at he
      simp only [List.mem_cons] at he
      rcases he with he | he
      · exact ⟨c.chunk_index, he⟩
      · exact ih (acc ++ data) e he

/-- Running the chunk loop over a list that starts with chunks whose GETs
all succeed and then one whose GET fails: the loop issues the GETs of the
successful prefix and of the failing chunk, keeps the accumulated rows of
the prefix, raises, and never reaches the chunks after the failing one. -/
theorem fetchChunks_fail_at {V : Type} (resp : Nat → ChunkResp V)
    (d : ChunkInfo → List (List V)) :
    ∀ (pre : List ChunkInfo) (cf : ChunkInfo) (rest : List ChunkInfo)
      (acc : List (List V)),
      (∀ c ∈ pre, ∃ s, resp c.chunk_index = ChunkResp.ok s (d c)) →
      resp cf.chunk_index = ChunkResp.fetchError →
      fetchChunks resp (pre ++ cf :: rest) acc =
        (pre.map (fun c => Event.chunkGet c.chunk_index) ++
           [Event.chunkGet cf.chunk_index],
         acc ++ (pre.map d).flatten, some DbError.chunkFetchError) := by
  intro pre
  induction pre with
  | nil =>
    intro cf rest acc _ hfail
    rw [List.nil_append, fetchChunks, hfail]
    simp
  | cons c pre' ih =>
    intro cf rest acc hok hfail
    obtain ⟨sc, hsc⟩ := hok c (List.mem_cons_self c pre')
    rw [List.cons_append, fetchChunks, hsc]
    show (Event.chunkGet c.chunk_index ::
        (fetchChunks resp (pre' ++ cf :: rest) (acc ++ d c)).1,
      (fetchChunks resp (pre' ++ cf :: rest) (acc ++ d c)).2) = _
    rw [ih cf rest (acc ++ d c) (fun c' hc' => hok c' (List.mem_cons_of_mem c hc')) hfail]
    simp [List.append_assoc]

/-! ### Helper lemmas about `dictZip` -/

theorem dictZip_eq_none {V : Type} :
    ∀ (cols : List String) (vals : List V) (k : String), k ∉ cols →
      dictZip cols vals k = none := by
  intro cols
  induction cols with
  | nil => intro vals k _; cases vals <;> rfl
  | cons c cs ih =>
    intro vals k hk
    cases vals with
    | nil => rfl
    | cons v vs =>
      rw [dictZip, ih vs k (fun h => hk (List.mem_cons_of_mem c h))]
      rw [if_neg (fun h => hk (by rw [h]; exact List.mem_cons_self c cs))]

theorem dictZip_get {V : Type} :
    ∀ (cols : List String) (vals : List V), cols.Nodup →
      cols.length = vals.length →
      ∀ (i : Nat) (h : i < cols.length),
        dictZip cols vals (cols.get ⟨i, h⟩) = vals.get? i := by
  intro cols
  induction cols with
  | nil => intro vals _ _ i h; exact absurd h (Nat.not_lt_zero i)
  | cons c cs ih =>
    intro vals hnd hlen i h
    cases vals with
    | nil => simp at hlen
    | cons v vs =>
      have hnd' := List.nodup_cons.mp hnd
      cases i with
      | zero =>
        simp only [List.get]
        rw [dictZip, dictZip_eq_none cs vs c hnd'.1, if_pos rfl, List.get?]
      | succ j =>
        simp only [List.get]
        have hj : j < cs.length := Nat.lt_of_succ_lt_succ h
        have hlen' : cs.length = vs.length := by simpa using hlen
        rw [dictZip, ih vs hnd'.2 hlen' j hj]
        have : ∃ w, vs.get? j = some w :=
          ⟨vs.get ⟨j, hlen' ▸ hj⟩, List.get?_eq_get (hlen' ▸ hj)⟩
        obtain ⟨w, hw⟩ := this
        rw [hw]
        exact hw.symm

theorem countStatusGets_append (s t : List Event) :
    countStatusGets (s ++ t) = countStatusGets s + countStatusGets t := by
  simp [countStatusGets, List.countP_append]

theorem countStatusGets_chunkEvents (t : List Event)
    (h : ∀ e ∈ t, ∃ k, e = Event.chunkGet k) : countStatusGets t = 0 := by
  simp only [countStatusGets]
  rw [List.countP_eq_zero]
  intro e he
  obtain ⟨k, rfl⟩ := h e he
  simp [isStatusGet]

/-! ### Claim theorems -/

/-- C4: for every statement whose status remains PENDING or RUNNING after 60
polls, `execute` fails with the timeout condition (a fatal abort, not a
retry), leaves the cursor state untouched (so no manifest data is read into
it) and performs no chunk-fetch call. -/
theorem c4_timeout_abort {V : Type} (env : Env V) (st : CursorState V)
    (hsub : env.submitStatus = 200)
    (hact : ∀ i, i ≤ maxPolls → isActive (statusChain env i).status.state = true) :
    (execute env st).error = some DbError.timeoutExceeded ∧
    (execute env st).state = st ∧
    ∀ k, Event.chunkGet k ∉ (execute env st).trace := by
  have hp := pollLoop_timeout env hact
  have he := execute_poll_error env st DbError.timeoutExceeded hsub (by rw [hp])
  have htr : (execute env st).trace = pollTrace maxPolls := by rw [he, hp]
  refine ⟨by rw [he], by rw [he], ?_⟩
  intro k hk
  rw [htr] at hk
  rcases pollTrace_mem maxPolls _ hk with h | h <;> simp at h

def resC4 : StmtResult := ⟨"id-4", ⟨"PENDING", none⟩, ⟨[], []⟩⟩

def envC4 : Env Nat :=
  { submitStatus := 200, submitBody := "", submitResult := resC4,
    polls := fun _ => resC4, chunkResp := fun _ => .fetchError }

/-- Witness for C4 at a concrete environment that stays PENDING forever. -/
theorem c4_timeout_abort_witness :
    (execute envC4 (initCursor Nat)).error = some DbError.timeoutExceeded ∧
    (execute envC4 (initCursor Nat)).state = initCursor Nat ∧
    ∀ k, Event.chunkGet k ∉ (execute envC4 (initCursor Nat)).trace :=
  c4_timeout_abort envC4 (initCursor Nat) rfl (by decide)

/-- C8: for a statement that becomes SUCCEEDED after exactly `N` polls
(`N ≤ 60`; `N = 0` means the initial response was already SUCCEEDED),
`execute` performs exactly `N` status GETs, each preceded by a fixed
2-second sleep (the trace starts with `N` sleep-then-GET pairs), and every
remaining event is a chunk-retrieval GET. -/
theorem c8_poll_counting {V : Type} (env : Env V) (st : CursorState V) (N : Nat)
    (hsub : env.submitStatus = 200) (hN : N ≤ maxPolls)
    (hact : ∀ i, i < N → isActive (statusChain env i).status.state = true)
    (hsucc : (statusChain env N).status.state = "SUCCEEDED") :
    ∃ rest, (execute env st).trace = pollTrace N ++ rest ∧
      (∀ e ∈ rest, ∃ k, e = Event.chunkGet k) ∧
      countStatusGets (execute env st).trace = N := by
  have hstop : isActive (statusChain env N).status.state = false := by rw [hsucc]; rfl
  have hp := pollLoop_run env N hN hact hstop
  have hres := execute_ok env st (statusChain env N) hsub (by rw [hp])
  rw [if_neg (by rw [hsucc]; simp)] at hres
  by_cases hc : (statusChain env N).manifest.chunks.isEmpty = true
  · rw [if_pos hc] at hres
    have htr : (execute env st).trace = pollTrace N := by rw [hres, hp]
    refine ⟨[], by rw [htr, List.append_nil], by simp, ?_⟩
    rw [htr, pollTrace_countStatusGets]
  · rw [if_neg hc] at hres
    refine ⟨(fetchChunks env.chunkResp (statusChain env N).manifest.chunks st.results).1,
      ?_, fun e he => fetchChunks_mem env.chunkResp _ _ e he, ?_⟩
    · rw [hres, hp]
    · have htr : (execute env st).trace = pollTrace N ++
          (fetchChunks env.chunkResp (statusChain env N).manifest.chunks st.results).1 := by
        rw [hres, hp]
      rw [htr, countStatusGets_append, pollTrace_countStatusGets,
        countStatusGets_chunkEvents _ (fun e he => fetchChunks_mem env.chunkResp _ _ e he),
        Nat.add_zero]

def resC8run : StmtResult := ⟨"id-8", ⟨"RUNNING", none⟩, ⟨[], []⟩⟩

def resC8ok : StmtResult := ⟨"id-8", ⟨"SUCCEEDED", none⟩, ⟨["a"], []⟩⟩

def envC8 : Env Nat :=
  { submitStatus := 200, submitBody := "", submitResult := resC8run,
    polls := fun _ => resC8ok, chunkResp := fun _ => .fetchError }

/-- Witness for C8 at a concrete environment that succeeds after one poll. -/
theorem c8_poll_counting_witness :
    ∃ rest, (execute envC8 (initCursor Nat)).trace = pollTrace 1 ++ rest ∧
      (∀ e ∈ rest, ∃ k, e = Event.chunkGet k) ∧
      countStatusGets (execute envC8 (initCursor Nat)).trace = 1 :=
  c8_poll_counting envC8 (initCursor Nat) 1 rfl (by decide) (by decide) rfl

/-- C9: for every statement whose status reaches the terminal FAILED state at
any stage (`N = 0`: on the initial response; `N > 0`: after `N` polls),
`execute` fails carrying the server-reported error payload, performs zero
chunk-fetch calls and leaves the cursor state untouched. -/
theorem c9_failed_state {V : Type} (env : Env V) (st : CursorState V) (N : Nat)
    (hsub : env.submitStatus = 200) (hN : N ≤ maxPolls)
    (hact : ∀ i, i < N → isActive (statusChain env i).status.state = true)
    (hfail : (statusChain env N).status.state = "FAILED") :
    (execute env st).error =
      some (DbError.queryExecutionFailed (statusChain env N).status.error) ∧
    (execute env st).state = st ∧
    ∀ k, Event.chunkGet k ∉ (execute env st).trace := by
  have hstop : isActive (statusChain env N).status.state = false := by rw [hfail]; rfl
  have hp := pollLoop_run env N hN hact hstop
  have hres := execute_ok env st (statusChain env N) hsub (by rw [hp])
  rw [if_pos (by rw [hfail]; decide)] at hres
  have htr : (execute env st).trace = pollTrace N := by rw [hres, hp]
  refine ⟨by rw [hres], by rw [hres], ?_⟩
  intro k hk
  rw [htr] at hk
  rcases pollTrace_mem N _ hk with h | h <;> simp at h

def resC9 : StmtResult := ⟨"id-9", ⟨"FAILED", some "boom"⟩, ⟨["a"], [⟨0⟩]⟩⟩

def envC9 : Env Nat :=
  { submitStatus := 200, submitBody := "", submitResult := resC9,
    polls := fun _ => resC9, chunkResp := fun _ => .ok 200 [[1]] }

/-- Witness for C9 at a concrete environment whose first response is FAILED
with payload "boom". -/
theorem c9_failed_state_witness :
    (execute envC9 (initCursor Nat)).error =
      some (DbError.queryExecutionFailed (statusChain envC9 0).status.error) ∧
    (execute envC9 (initCursor Nat)).state = initCursor Nat ∧
    ∀ k, Event.chunkGet k ∉ (execute envC9 (initCursor Nat)).trace :=
  c9_failed_state envC9 (initCursor Nat) 0 rfl (by decide)
    (fun i hi => absurd hi (Nat.not_lt_zero i)) rfl

/-- C6: for a terminal SUCCEEDED statement whose manifest lists chunks
[0,1,2], starting from an empty row buffer, the resulting row sequence is
exactly chunk0 ++ chunk1 ++ chunk2 in manifest order, and the three chunk
GETs are issued sequentially in index order after the poll trace; no
re-sorting happens. -/
theorem c6_chunk_concat {V : Type} (env : Env V) (st : CursorState V)
    (res : StmtResult) (s0 s1 s2 : Nat) (d0 d1 d2 : List (List V))
    (hsub : env.submitStatus = 200)
    (hpoll : (pollLoop env.polls env.submitResult).2 = Except.ok res)
    (hstate : res.status.state = "SUCCEEDED")
    (hchunks : res.manifest.chunks = [⟨0⟩, ⟨1⟩, ⟨2⟩])
    (h0 : env.chunkResp 0 = ChunkResp.ok s0 d0)
    (h1 : env.chunkResp 1 = ChunkResp.ok s1 d1)
    (h2 : env.chunkResp 2 = ChunkResp.ok s2 d2)
    (hbuf : st.results = []) :
    (execute env st).error = none ∧
    (execute env st).state.results = d0 ++ d1 ++ d2 ∧
    (execute env st).trace =
      (pollLoop env.polls env.submitResult).1 ++
        [Event.chunkGet 0, Event.chunkGet 1, Event.chunkGet 2] := by
  have hres := execute_ok env st res hsub hpoll
  rw [if_neg (by rw [hstate]; simp)] at hres
  rw [if_neg (by rw [hchunks]; decide)] at hres
  have hf : fetchChunks env.chunkResp res.manifest.chunks st.results =
      ([Event.chunkGet 0, Event.chunkGet 1, Event.chunkGet 2],
       d0 ++ d1 ++ d2, none) := by
    rw [hchunks, hbuf]
    simp [fetchChunks, h0, h1, h2, List.append_assoc]
  rw [hres, hf]
  exact ⟨rfl, rfl, rfl⟩

def resC6 : StmtResult := ⟨"id-6", ⟨"SUCCEEDED", none⟩, ⟨["a"], [⟨0⟩, ⟨1⟩, ⟨2⟩]⟩⟩

def envC6 : Env Nat :=
  { submitStatus := 200, submitBody := "", submitResult := resC6,
    polls := fun _ => resC6,
    chunkResp := fun k =>
      if k = 0 then .ok 200 [[10]] else if k = 1 then .ok 200 [[11]] else .ok 200 [[12]] }

/-- Witness for C6 at a concrete three-chunk environment. -/
theorem c6_chunk_concat_witness :
    (execute envC6 (initCursor Nat)).error = none ∧
    (execute envC6 (initCursor Nat)).state.results = [[10]] ++ [[11]] ++ [[12]] ∧
    (execute envC6 (initCursor Nat)).trace =
      (pollLoop envC6.polls envC6.submitResult).1 ++
        [Event.chunkGet 0, Event.chunkGet 1, Event.chunkGet 2] :=
  c6_chunk_concat envC6 (initCursor Nat) resC6 200 200 200 [[10]] [[11]] [[12]]
    rfl rfl rfl rfl rfl rfl rfl rfl

/-- C7: for every row and every valid position `i`, positional lookup
`row[i]` and name-keyed lookup `row[columns[i]]` return the same value,
under the invariant that the column names are distinct and as many as the
row's values. -/
theorem c7_lookup_agree {V : Type} (r : Row V) (i : Nat) (hi : i < r.columns.length)
    (hnd : r.columns.Nodup) (hlen : r.columns.length = r.values.length) :
    Row.getKey r (r.columns.get ⟨i, hi⟩) = Row.getPos r i :=
  dictZip_get r.columns r.values hnd hlen i hi

def rowC7 : Row Nat := ⟨[10, 20], ["a", "b"]⟩

/-- Witness for C7 at a concrete two-column row. -/
theorem c7_lookup_agree_witness :
    Row.getKey rowC7 (rowC7.columns.get ⟨0, by decide⟩) = Row.getPos rowC7 0 :=
  c7_lookup_agree rowC7 0 (by decide) (by decide) (by decide)

/-- C10: iterating a row yields its positional values in column order, so
rebuilding a mapping with the downstream `dict(zip(column_names, row))`
pattern gives exactly the row's own `_mapping`. -/
theorem c10_dict_roundtrip {V : Type} (st : CursorState V) (r : Row V)
    (hr : r ∈ fetchall st) :
    Row.iterVals r = r.values ∧
    rowToDict (cursorColumns st) r = Row.mapping r := by
  refine ⟨rfl, ?_⟩
  simp only [fetchall, List.mem_map] at hr
  obtain ⟨row, _, rfl⟩ := hr
  rfl

def stC10 : CursorState Nat := ⟨some ["a", "b"], [[1, 2]]⟩

def rowC10 : Row Nat := ⟨[1, 2], ["a", "b"]⟩

/-- Witness for C10 at a concrete cursor state and row. -/
theorem c10_dict_roundtrip_witness :
    Row.iterVals rowC10 = rowC10.values ∧
    rowToDict (cursorColumns stC10) rowC10 = Row.mapping rowC10 :=
  c10_dict_roundtrip stC10 rowC10 (by decide)

def resC1 : StmtResult := ⟨"id-1", ⟨"SUCCEEDED", none⟩, ⟨["a"], [⟨0⟩, ⟨1⟩]⟩⟩

def envC1 : Env Nat :=
  { submitStatus := 200, submitBody := "", submitResult := resC1,
    polls := fun _ => resC1,
    chunkResp := fun k => if k = 0 then .ok 200 [[7]] else .fetchError }

/-- C1 counterexample: fetching chunk 1 fails after chunk 0 was fetched; the
exception propagates, yet a subsequent `fetchall` on the same cursor returns
chunk 0's row — the partial result is observable, contradicting the claim
that chunks 0..N-1 are discarded. -/
theorem c1_counterexample :
    (execute envC1 (initCursor Nat)).error = some DbError.chunkFetchError ∧
    fetchall (execute envC1 (initCursor Nat)).state = [⟨[7], ["a"]⟩] ∧
    fetchall (execute envC1 (initCursor Nat)).state ≠ [] := by decide

/-- C1 (amended): for every N ≥ 1, when fetching chunk N fails after chunks
0..N-1 were fetched successfully (with arbitrary further chunks listed after
chunk N), the failure propagates to the caller, but the rows of chunks
0..N-1 are NOT discarded: they stay in the cursor's buffer and a subsequent
`fetchall` on the same cursor returns exactly those rows. -/
theorem c1_partial_kept {V : Type} (env : Env V) (st : CursorState V)
    (res : StmtResult) (N : Nat) (s : Nat → Nat) (d : Nat → List (List V))
    (rest : List ChunkInfo)
    (hN : 1 ≤ N)
    (hsub : env.submitStatus = 200)
    (hpoll : (pollLoop env.polls env.submitResult).2 = Except.ok res)
    (hstate : res.status.state = "SUCCEEDED")
    (hchunks : res.manifest.chunks = (List.range (N + 1)).map ChunkInfo.mk ++ rest)
    (hok : ∀ i, i < N → env.chunkResp i = ChunkResp.ok (s i) (d i))
    (hfail : env.chunkResp N = ChunkResp.fetchError)
    (hbuf : st.results = []) :
    (execute env st).error = some DbError.chunkFetchError ∧
    (execute env st).state.results = concatChunks d N ∧
    fetchall (execute env st).state =
      (concatChunks d N).map (fun row => ⟨row, res.manifest.schemaColumns⟩) := by
  have hres := execute_ok env st res hsub hpoll
  rw [if_neg (by rw [hstate]; simp)] at hres
  rw [if_neg (by
    rw [hchunks, List.range_succ]
    simp [List.isEmpty_iff])] at hres
  have hsplit : res.manifest.chunks =
      (List.range N).map ChunkInfo.mk ++ ChunkInfo.mk N :: rest := by
    rw [hchunks, List.range_succ, List.map_append, List.append_assoc]
    rfl
  have hpre : ∀ c ∈ (List.range N).map ChunkInfo.mk,
      ∃ s', env.chunkResp c.chunk_index = ChunkResp.ok s' (d c.chunk_index) := by
    intro c hc
    simp only [List.mem_map, List.mem_range] at hc
    obtain ⟨i, hi, rfl⟩ := hc
    exact ⟨s i, hok i hi⟩
  have hf : fetchChunks env.chunkResp res.manifest.chunks st.results =
      ((List.range N).map (fun i => Event.chunkGet i) ++ [Event.chunkGet N],
       concatChunks d N, some DbError.chunkFetchError) := by
    rw [hsplit, hbuf,
      fetchChunks_fail_at env.chunkResp (fun c => d c.chunk_index)
        ((List.range N).map ChunkInfo.mk) (ChunkInfo.mk N) rest [] hpre hfail]
    simp only [concatChunks, List.map_map, List.nil_append]
    rfl
  rw [hres, hf]
  refine ⟨rfl, rfl, ?_⟩
  simp [fetchall, cursorColumns]

/-- Witness for the amended C1 at the concrete environment of the
counterexample (N = 1: chunk 0 succeeds with rows [[7]], chunk 1 fails). -/
theorem c1_partial_kept_witness :
    (execute envC1 (initCursor Nat)).error = some DbError.chunkFetchError ∧
    (execute envC1 (initCursor Nat)).state.results =
      concatChunks (fun _ => ([[7]] : List (List Nat))) 1 ∧
    fetchall (execute envC1 (initCursor Nat)).state =
      (concatChunks (fun _ => ([[7]] : List (List Nat))) 1).map
        (fun row => ⟨row, resC1.manifest.schemaColumns⟩) :=
  c1_partial_kept envC1 (initCursor Nat) resC1 1 (fun _ => 200) (fun _ => [[7]]) []
    (by decide) rfl rfl rfl (by decide) (by decide) rfl rfl

def resC2 : StmtResult := ⟨"id-2", ⟨"SUCCEEDED", none⟩, ⟨["a"], [⟨0⟩]⟩⟩

def envC2 : Env Nat :=
  { submitStatus := 200, submitBody := "", submitResult := resC2,
    polls := fun _ => resC2, chunkResp := fun _ => .ok 500 [[3]] }

/-- C2 counterexample: the chunk GET returns HTTP 500 (non-2xx), yet
`execute` succeeds with no exception and returns the body's rows — the code
never checks a chunk response's status code. -/
theorem c2_counterexample :
    envC2.chunkResp 0 = ChunkResp.ok 500 [[3]] ∧
    (execute envC2 (initCursor Nat)).error = none ∧
    (execute envC2 (initCursor Nat)).state.results = [[3]] := by decide

/-- C2 (amended): a non-200 on the initial POST fails immediately with the
raw response body and no rows; chunk-fetch responses, however, are never
status-checked — a chunk response with any HTTP status code (2xx or not)
whose JSON body parses has its data rows appended normally and raises
nothing. -/
theorem c2_submit_checked_chunks_not {V : Type} (env : Env V) (st : CursorState V) :
    (env.submitStatus ≠ 200 →
      (execute env st).error = some (DbError.submissionFailed env.submitBody) ∧
      (execute env st).state = st) ∧
    (∀ (res : StmtResult) (s : Nat) (d : List (List V)),
      env.submitStatus = 200 →
      (pollLoop env.polls env.submitResult).2 = Except.ok res →
      res.status.state = "SUCCEEDED" →
      res.manifest.chunks = [⟨0⟩] →
      env.chunkResp 0 = ChunkResp.ok s d →
      (execute env st).error = none ∧
      (execute env st).state.results = st.results ++ d) := by
  constructor
  · intro h
    rw [execute_submit_fail env st h]
    exact ⟨rfl, rfl⟩
  · intro res s d hsub hpoll hstate hchunks hresp
    have hres := execute_ok env st res hsub hpoll
    rw [if_neg (by rw [hstate]; simp)] at hres
    rw [if_neg (by rw [hchunks]; decide)] at hres
    have hf : fetchChunks env.chunkResp res.manifest.chunks st.results =
        ([Event.chunkGet 0], st.results ++ d, none) := by
      rw [hchunks]
      simp [fetchChunks, hresp]
    rw [hres, hf]
    exact ⟨rfl, rfl⟩

def envC2sub : Env Nat :=
  { submitStatus := 403, submitBody := "denied",
    submitResult := resC2, polls := fun _ => resC2, chunkResp := fun _ => .ok 500 [[3]] }

/-- Witness for the amended C2: a 403 submit fails with the raw body, and a
500 chunk response is consumed without any exception. -/
theorem c2_submit_checked_chunks_not_witness :
    ((execute envC2sub (initCursor Nat)).error =
        some (DbError.submissionFailed "denied") ∧
      (execute envC2sub (initCursor Nat)).state = initCursor Nat) ∧
    ((execute envC2 (initCursor Nat)).error = none ∧
      (execute envC2 (initCursor Nat)).state.results = ([] : List (List Nat)) ++ [[3]]) :=
  ⟨(c2_submit_checked_chunks_not envC2sub (initCursor Nat)).1 (by decide),
   (c2_submit_checked_chunks_not envC2 (initCursor Nat)).2 resC2 500 [[3]]
     rfl rfl rfl rfl rfl⟩

def resC3 : StmtResult := ⟨"id-3", ⟨"SUCCEEDED", none⟩, ⟨["a"], []⟩⟩

def envC3 : Env Nat :=
  { submitStatus := 200, submitBody := "", submitResult := resC3,
    polls := fun _ => resC3, chunkResp := fun _ => .fetchError }

/-- C3 counterexample: first response SUCCEEDED with zero chunks but with
nonempty schema ["a"]: the returned column-name sequence is [] and does not
match the manifest schema. -/
theorem c3_counterexample :
    envC3.submitResult.status.state = "SUCCEEDED" ∧
    envC3.submitResult.manifest.chunks = [] ∧
    envC3.submitResult.manifest.schemaColumns = ["a"] ∧
    (execute envC3 (initCursor Nat)).state.results = [] ∧
    cursorColumns (execute envC3 (initCursor Nat)).state ≠
      envC3.submitResult.manifest.schemaColumns := by decide

/-- C3 (amended): for every statement whose first response is SUCCEEDED with
a manifest listing zero chunks, `execute` returns an empty row sequence and
an EMPTY column-name sequence — the manifest schema is not consulted in the
zero-chunk branch, so the column names match the schema only when the schema
itself is empty. -/
theorem c3_zero_chunks_empty {V : Type} (env : Env V) (st : CursorState V)
    (hsub : env.submitStatus = 200)
    (hstate : env.submitResult.status.state = "SUCCEEDED")
    (hchunks : env.submitResult.manifest.chunks = []) :
    (execute env st).error = none ∧
    (execute env st).state.results = [] ∧
    (execute env st).state.description = some [] ∧
    fetchall (execute env st).state = [] := by
  have hstop : isActive env.submitResult.status.state = false := by rw [hstate]; rfl
  have hp : pollLoop env.polls env.submitResult = ([], .ok env.submitResult) :=
    pollLoopAux_notActive env.polls maxPolls 0 env.submitResult hstop
  have hres := execute_ok env st env.submitResult hsub (by rw [hp])
  rw [if_neg (by rw [hstate]; simp)] at hres
  rw [if_pos (by rw [hchunks]; rfl)] at hres
  rw [hres]
  exact ⟨rfl, rfl, rfl, rfl⟩

/-- Witness for the amended C3 at the concrete environment of the
counterexample. -/
theorem c3_zero_chunks_empty_witness :
    (execute envC3 (initCursor Nat)).error = none ∧
    (execute envC3 (initCursor Nat)).state.results = [] ∧
    (execute envC3 (initCursor Nat)).state.description = some [] ∧
    fetchall (execute envC3 (initCursor Nat)).state = [] :=
  c3_zero_chunks_empty envC3 (initCursor Nat) rfl rfl rfl

def resC5 : StmtResult := ⟨"id-5", ⟨"SUCCEEDED", none⟩, ⟨["a"], [⟨0⟩]⟩⟩

def envC5a : Env Nat :=
  { submitStatus := 200, submitBody := "", submitResult := resC5,
    polls := fun _ => resC5, chunkResp := fun _ => .ok 200 [[1]] }

def envC5b : Env Nat :=
  { submitStatus := 200, submitBody := "", submitResult := resC5,
    polls := fun _ => resC5, chunkResp := fun _ => .ok 200 [[2]] }

/-- C5 evaluated at the failing input: two consecutive `execute` calls on the
same cursor, both successful with one chunk each (first chunk rows [[1]],
second [[2]]). The `_results` buffer is extended but never cleared in the
chunk branch, so the second execution does NOT start from an empty buffer:
the first execution's row survives into the second `fetchall`. The
zero-chunk branch does reset the buffer, and `get_table_metadata` in
`enrichment_service.py` reuses one cursor for two queries, so the missing
reset is a slip in the code, not intended behaviour. -/
theorem c5_buffer_not_reset :
    (execute envC5b (execute envC5a (initCursor Nat)).state).state.results
      = [[1], [2]] ∧
    Row.mk [1] ["a"] ∈
      fetchall (execute envC5b (execute envC5a (initCursor Nat)).state).state := by
  decide

end DbClient
